import Mathlib

/-!
# Verification of the twardyece-manager authorization / resource-binding core

Shallow embedding of the Rust sources:

* `src/di-service/src/computer_system_collection.rs` — the monolithic route
  builders (`ComputerSystemCollection`, `ComputerSystem`, `Certificate`,
  `CertificateCollection`), the `ResourceLocator` middleware and
  `get_request_parameter`;
* `src/di-service/src/computer_system.rs`, `certificate.rs`,
  `certificate_collection.rs` — the privilege-parameterized builders and the
  `DefaultPrivileges` / `CertificatePrivileges` mappings;
* `src/di-service/src/main.rs` — the `route_layer` middleware that binds
  `:computer_system_id`;
* `src/twardyece-manager/src/auth.rs` — `ExampleBasicAuthenticator`;
* `src/twardyece-manager/src/endpoint/systems.rs` and
  `src/manager/src/endpoint/systems.rs` — the `Reset::post` operations;
* the `CombinedAuthenticationProxy` and `InMemorySessionManager` referenced
  from `src/twardyece-manager/src/main.rs` live in the external `seuss`
  crate and are modelled from the spec where noted.

Rust `Result<T, Response>` becomes `Except Response T`; `Option` stays
`Option`; request extensions (axum's type-keyed map) become a list of tagged
values with type-keyed insertion and lookup.
-/

deriving instance DecidableEq for Except

namespace TwardyeceManager

/-- Roles of `seuss::auth::Role`, ordered least- to most-privileged
(spec section 3: ReadOnly < Operator < Administrator). -/
inductive Role where
  | readOnly
  | operator
  | administrator
deriving DecidableEq, Repr

/-- Redfish privileges used by the route builders
(`redfish_core::privilege` / `seuss::auth`). -/
inductive Privilege where
  | login
  | configureSelf
  | configureComponents
  | configureUsers
  | configureManager
deriving DecidableEq, Repr

/-- Modelled from the spec: the role-to-privilege satisfaction judgment lives
in the external `redfish_core`/`seuss` crates (only its uses appear under
`src/`).  Spec section 3: "satisfies privilege" compares the caller's role
against the minimum role required, in the total order
ReadOnly < Operator < Administrator; per the Redfish base privilege register,
`Login`/`ConfigureSelf` require ReadOnly, `ConfigureComponents` requires
Operator, and `ConfigureUsers`/`ConfigureManager` require Administrator. -/
def minRoleFor : Privilege → Role
  | .login => .readOnly
  | .configureSelf => .readOnly
  | .configureComponents => .operator
  | .configureUsers => .administrator
  | .configureManager => .administrator

/-- The most restrictive role in the total order of spec section 3. -/
def mostRestrictiveRole : Role := .administrator

/-- `seuss::auth::AuthenticatedUser` (spec section 3, Principal). -/
structure AuthenticatedUser where
  username : String
  role : Role
deriving DecidableEq, Repr

/-- Bodies of the responses produced by the embedded code, one constructor
per distinct construction site in the source. -/
inductive ResponseBody where
  /-- `redfish_error::one_message(Base::InternalError.into())`
  (`redfish_map_err` / `redfish_map_err_no_log`). -/
  | internalError
  /-- `redfish_error::one_message(Base::OperationNotAllowed.into())`
  (the `into_router` fallbacks). -/
  | operationNotAllowed
  /-- `Json("Missing 'computer_system_id' parameter")` in `main.rs`. -/
  | missingComputerSystemId
  /-- `Json(error.to_string())` for the `u32` parse error in `main.rs`. -/
  | parseError (message : String)
  /-- axum's `MissingExtension` rejection for an `Extension<T>` extractor. -/
  | missingExtension
  /-- A body produced by an authentication rejection or resolver failure
  that the embedded code only forwards. -/
  | opaqueBody (tag : Nat)
deriving DecidableEq, Repr

/-- An HTTP response: status code, body, and any `WWW-Authenticate`
challenge header values it carries. -/
structure Response where
  status : Nat
  body : ResponseBody
  challenges : List String := []
deriving DecidableEq, Repr

/-- `redfish_map_err_no_log` in `computer_system_collection.rs`: discards the
error and answers `(StatusCode::BAD_REQUEST, Json(... InternalError ...))`. -/
def redfish_map_err_no_log : Response :=
  { status := 400, body := .internalError }

/-- `redfish_map_err`: logs the error, then behaves as
`redfish_map_err_no_log`. -/
def redfish_map_err : Response := redfish_map_err_no_log

/-- The type-keyed request-extension values inserted by the embedded code
(axum's `Extensions` map holds at most one value per Rust type). -/
inductive Ext where
  | user (u : AuthenticatedUser)
  | sysId (n : Nat)
  | certId (s : String)
deriving DecidableEq, Repr

/-- The type key of an extension value: values with equal tags model values
of the same Rust type. -/
def Ext.tag : Ext → Nat
  | .user _ => 0
  | .sysId _ => 1
  | .certId _ => 2

/-- An HTTP request: the path parameters captured by the matched route and
the type-keyed extension map. -/
structure Request where
  params : List (String × String)
  extensions : List Ext
deriving DecidableEq, Repr

/-- `Extensions::insert`: replaces any value of the same type, keeps the
rest. -/
def Request.insertExt (req : Request) (e : Ext) : Request :=
  { req with extensions := e :: req.extensions.filter (fun x => x.tag ≠ e.tag) }

/-- `Extensions::get::<T>` for the type with tag `t`. -/
def lookupTag (t : Nat) (exts : List Ext) : Option Ext :=
  exts.find? (fun x => x.tag = t)

/-- `Extension::<AuthenticatedUser>` lookup. -/
def lookupUser (req : Request) : Option AuthenticatedUser :=
  match lookupTag 0 req.extensions with
  | some (.user u) => some u
  | _ => none

end TwardyeceManager

namespace TwardyeceManager

/-! ## Privilege mappings (`src/di-service`)

`OperationPrivilegeMapping` is a trait with one associated privilege type per
HTTP verb; an implementation is therefore a total function from verbs to
privileges. -/

/-- The HTTP verbs of `OperationPrivilegeMapping`. -/
inductive Verb where
  | get
  | post
  | put
  | patch
  | delete
  | head
deriving DecidableEq, Repr

/-- An implementation of the `OperationPrivilegeMapping` trait: the trait
forces all six associated types to be given, so a mapping is total. -/
structure OperationPrivilegeMapping where
  get : Privilege
  post : Privilege
  put : Privilege
  patch : Privilege
  delete : Privilege
  head : Privilege
deriving DecidableEq, Repr

/-- The privilege the mapping assigns to a verb. -/
def OperationPrivilegeMapping.app (m : OperationPrivilegeMapping) : Verb → Privilege
  | .get => m.get
  | .post => m.post
  | .put => m.put
  | .patch => m.patch
  | .delete => m.delete
  | .head => m.head

/-- `DefaultPrivileges` of `src/di-service/src/computer_system.rs`
(lines 34–42). -/
def ComputerSystemDefaultPrivileges : OperationPrivilegeMapping :=
  { get := .login
    post := .configureComponents
    put := .configureComponents
    patch := .configureComponents
    delete := .configureComponents
    head := .login }

/-- `CertificateCollectionPrivileges` of
`src/di-service/src/computer_system.rs` (lines 14–22). -/
def CertificateCollectionPrivileges : OperationPrivilegeMapping :=
  { get := .configureComponents
    post := .configureComponents
    put := .configureComponents
    patch := .configureComponents
    delete := .configureComponents
    head := .configureComponents }

/-- `CertificatePrivileges` of `src/di-service/src/computer_system.rs`
(lines 24–32). -/
def CertificatePrivileges : OperationPrivilegeMapping :=
  { get := .configureComponents
    post := .configureComponents
    put := .configureComponents
    patch := .configureComponents
    delete := .configureComponents
    head := .configureComponents }

/-- `DefaultPrivileges` of `src/di-service/src/certificate.rs`. -/
def CertificateDefaultPrivileges : OperationPrivilegeMapping :=
  { get := .configureManager
    post := .configureManager
    put := .configureManager
    patch := .configureManager
    delete := .configureManager
    head := .configureManager }

/-- `DefaultPrivileges` of `src/di-service/src/certificate_collection.rs`. -/
def CertificateCollectionDefaultPrivileges : OperationPrivilegeMapping :=
  { get := .configureManager
    post := .configureManager
    put := .configureManager
    patch := .configureManager
    delete := .configureManager
    head := .configureManager }

end TwardyeceManager

namespace TwardyeceManager

/-! ## `ExampleBasicAuthenticator` (`src/twardyece-manager/src/auth.rs`) -/

/-- A `redfish::Error` value; the authenticator never constructs one, so its
content is irrelevant here. -/
inductive RedfishError where
  | mk
deriving DecidableEq, Repr

/-- `ExampleBasicAuthenticator::authenticate`: ignores the password and
returns an `Administrator` principal for the given username. -/
def ExampleBasicAuthenticator.authenticate (username : String) (_password : String) :
    Except RedfishError AuthenticatedUser :=
  .ok { username := username, role := .administrator }

end TwardyeceManager

namespace TwardyeceManager

/-! ## Resource locator middleware
(`src/di-service/src/computer_system_collection.rs` lines 79–283 and the
`route_layer` middleware of `src/di-service/src/main.rs` lines 92–132)

Generic Rust types become Lean type parameters: `T: FromStr` becomes a
`parse : String → Option α` function (`from_str` failing is `none`),
`T1: FromRequestParts` becomes an `extract : Request → Except Response γ`
function, and an async resolver `Fn(..) -> Result<R, Response>` becomes a
function into `Except Response Ext` (the resolved value is inserted into the
type-keyed extension map, so it is modelled at type `Ext`). -/

/-- `HashMap::get` on the captured path parameters
(`Path::<HashMap<String, String>>` extraction of the full map is modelled by
the `params` field: inside a route configured with the parameter, axum
always supplies the map). -/
def lookupParam (params : List (String × String)) (parameter_name : String) : Option String :=
  (params.find? (fun p => p.1 == parameter_name)).map (·.2)

/-- `get_request_parameter` (`computer_system_collection.rs` lines 79–96):
look up the named parameter, then parse it; a missing parameter maps through
`redfish_map_err`, a parse failure through `redfish_map_err_no_log`. -/
def get_request_parameter {α : Type} (parse : String → Option α)
    (params : List (String × String)) (parameter_name : String) : Except Response α :=
  match lookupParam params parameter_name with
  | none => .error redfish_map_err
  | some raw =>
    match parse raw with
    | none => .error redfish_map_err_no_log
    | some v => .ok v

/-- `FunctionResourceHandler<(T,)>::call` (lines 150–165): extract and parse
the named parameter, run the resolver, and on success insert the resolved
value into the request's extensions. -/
def FunctionResourceHandler.call1 {α : Type} (parse : String → Option α)
    (f : α → Except Response Ext) (request : Request) (parameter_name : String) :
    Except Response Request :=
  match get_request_parameter parse request.params parameter_name with
  | .error e => .error e
  | .ok v =>
    match f v with
    | .error e => .error e
    | .ok r => .ok (request.insertExt r)

/-- `FunctionResourceHandler<(T1, T2)>::call` (lines 122–140): first run the
`T1` extractor (e.g. an `Extension` bound by an enclosing locator), then
extract and parse the named parameter, then run the two-argument resolver on
both values; on success insert the resolved value into the extensions. -/
def FunctionResourceHandler.call2 {γ α : Type} (extract : Request → Except Response γ)
    (parse : String → Option α) (f : γ → α → Except Response Ext)
    (request : Request) (parameter_name : String) : Except Response Request :=
  match extract request with
  | .error e => .error e
  | .ok x =>
    match get_request_parameter parse request.params parameter_name with
    | .error e => .error e
    | .ok v =>
      match f x v with
      | .error e => .error e
      | .ok r => .ok (request.insertExt r)

/-- `ResourceLocatorService::call` (lines 269–283): run the resource
handler; a rejection is returned at once, otherwise the inner service is
invoked on the enriched request. -/
def ResourceLocatorService.call (handlerCall : Request → Except Response Request)
    (inner : Request → Response) (request : Request) : Response :=
  match handlerCall request with
  | .error rejection => rejection
  | .ok enriched => inner enriched

/-- A decimal digit, as `u32::from_str_radix(_, 10)` accepts it. -/
def isDigitChar (c : Char) : Bool :=
  48 ≤ c.toNat && c.toNat ≤ 57

/-- The numeric value of a list of decimal digits, most significant first. -/
def digitsToNat (cs : List Char) : Nat :=
  cs.foldl (fun acc c => acc * 10 + (c.toNat - 48)) 0

/-- `u32::from_str_radix(id, 10)`: an optional leading `+`, then at least
one decimal digit, value below `2^32` (overflow is a parse error). -/
def parseU32 (s : String) : Option Nat :=
  let cs := match s.data with
    | '+' :: rest => rest
    | cs => cs
  if cs.isEmpty then none
  else if cs.all isDigitChar then
    let n := digitsToNat cs
    if n < 2 ^ 32 then some n else none
  else none

/-- The `(StatusCode::BAD_REQUEST, Json("Missing 'computer_system_id'
parameter"))` response of `main.rs`. -/
def missingComputerSystemIdResponse : Response :=
  { status := 400, body := .missingComputerSystemId }

/-- The `(StatusCode::BAD_REQUEST, Json(error.to_string()))` response of
`main.rs`; the parse-error text is modelled as a function of the raw
parameter string. -/
def parseErrorResponse (raw : String) : Response :=
  { status := 400, body := .parseError raw }

/-- The `route_layer` middleware of `src/di-service/src/main.rs`
(lines 92–132): read the `computer_system_id` parameter, parse it as `u32`,
insert the numeric id into the extensions and run the inner stage; a missing
or unparsable parameter short-circuits with a 400 response. -/
def computerSystemIdMiddleware (next : Request → Response) (request : Request) : Response :=
  match lookupParam request.params "computer_system_id" with
  | none => missingComputerSystemIdResponse
  | some raw =>
    match parseU32 raw with
    | none => parseErrorResponse raw
    | some id => next (request.insertExt (.sysId id))

/-- The `Extension::<u32>` extractor used by the inner resolver in
`main.rs`: reads the value bound by the enclosing locator from the
extensions; a missing extension is axum's `MissingExtension` rejection. -/
def extractSysId (request : Request) : Except Response Nat :=
  match lookupTag (Ext.sysId 0).tag request.extensions with
  | some (.sysId n) => .ok n
  | _ => .error { status := 500, body := .missingExtension }

/-- A request whose matched route captured a non-numeric
`computer_system_id` (e.g. `PUT /redfish/v1/Systems/abc`). -/
def nonNumericSystemRequest : Request :=
  { params := [("computer_system_id", "abc")], extensions := [] }

end TwardyeceManager

namespace TwardyeceManager

/-! ## Route builders (`src/di-service`)

An axum handler taking `State` and `Request` is modelled as a function from
`Request` to `Response` (the state is fixed at construction time); a
`MethodRouter` is its optional registered service per verb. -/

/-- The caller's role satisfies a required privilege when it is at least
the minimum role for that privilege in the total order of spec section 3. -/
def roleIndex : Role → Nat
  | .readOnly => 0
  | .operator => 1
  | .administrator => 2

/-- Role-privilege satisfaction: `caller role ≥ required role`. -/
def roleSatisfies (r : Role) (p : Privilege) : Bool :=
  roleIndex (minRoleFor p) ≤ roleIndex r

/-- Modelled from the spec: the `RedfishAuth<P>` extractor and the
authorization gate live in the external `seuss`/`redfish_core` crates; only
their uses appear under `src/`.  Spec section 4.3: run the authentication
strategy; `None` fails with 401 and a challenge, a principal with an
insufficient role fails with 403, otherwise the principal is produced. -/
def redfishAuth (priv : Privilege)
    (strategy : Request → Except Response (Option AuthenticatedUser))
    (request : Request) : Except Response AuthenticatedUser :=
  match strategy request with
  | .error e => .error e
  | .ok none => .error { status := 401, body := .opaqueBody 0 }
  | .ok (some u) =>
    if roleSatisfies u.role priv then .ok u
    else .error { status := 403, body := .opaqueBody 1 }

/-- The closure registered by every builder method
(`|auth: RedfishAuth<P>, State(state), mut request| async { ... }`): axum
runs the `RedfishAuth` extractor first; a rejection becomes the response and
the handler body never runs; on success the body inserts `auth.user` into
the request's extensions and only then calls the user handler. -/
def wrapAuth (extract : Request → Except Response AuthenticatedUser)
    (handler : Request → Response) : Request → Response :=
  fun request =>
    match extract request with
    | .error rejection => rejection
    | .ok user => handler (request.insertExt (.user user))

/-- Register a service for one verb of a method router, leaving the other
verbs unchanged. -/
def updateVerb (routes : Verb → Option (Request → Response)) (v : Verb)
    (service : Request → Response) : Verb → Option (Request → Response) :=
  fun v' => if v' = v then some service else routes v'

/-- Every registered service of a method router is an authentication
wrapper around some user handler. -/
def allWrapped (routes : Verb → Option (Request → Response)) : Prop :=
  ∀ v s, routes v = some s →
    ∃ extract handler, s = wrapAuth extract handler

/-- `redfish_error::one_message(Base::OperationNotAllowed.into())` with
`StatusCode::METHOD_NOT_ALLOWED`: the `into_router` fallback response. -/
def methodNotAllowedResponse : Response :=
  { status := 405, body := .operationNotAllowed }

/-- Running a method router that `into_router` equipped with the
405 fallback: a registered verb dispatches to its service, any other verb is
answered by the fallback. -/
def runWithFallback (routes : Verb → Option (Request → Response))
    (v : Verb) (request : Request) : Response :=
  match routes v with
  | some service => service request
  | none => methodNotAllowedResponse

/-- `ComputerSystemCollection` of
`src/di-service/src/computer_system_collection.rs` (lines 434–518). -/
structure ComputerSystemCollection where
  collection : Verb → Option (Request → Response)
  systems : Option (Request → Response)

/-- `#[derive(Default)]`: no registered verb, no nested router. -/
def ComputerSystemCollection.default : ComputerSystemCollection :=
  { collection := fun _ => none, systems := none }

/-- `ComputerSystemCollection::get` (lines 447–468): registers for GET the
authentication wrapper around the handler, at privilege `Login`.  The
authentication strategy is the one carried by the router state `S`. -/
def ComputerSystemCollection.get (b : ComputerSystemCollection)
    (strategy : Request → Except Response (Option AuthenticatedUser))
    (handler : Request → Response) : ComputerSystemCollection :=
  { b with collection :=
      updateVerb b.collection .get (wrapAuth (redfishAuth .login strategy) handler) }

/-- `ComputerSystemCollection::post` (lines 470–490): registers for POST the
authentication wrapper around the handler, at privilege
`ConfigureComponents`. -/
def ComputerSystemCollection.post (b : ComputerSystemCollection)
    (strategy : Request → Except Response (Option AuthenticatedUser))
    (handler : Request → Response) : ComputerSystemCollection :=
  { b with collection :=
      (updateVerb b.collection .post
        (wrapAuth (redfishAuth .configureComponents strategy) handler)) }

/-- `ComputerSystemCollection::into_router` (lines 499–518): the method
router is installed at `/` with the `METHOD_NOT_ALLOWED` fallback (the
nested `systems` router at `/:computer_system_id` is untouched here). -/
def ComputerSystemCollection.into_router (b : ComputerSystemCollection) :
    Verb → Request → Response :=
  runWithFallback b.collection

/-- `ComputerSystem<S, P>` of `src/di-service/src/computer_system.rs`. -/
structure ComputerSystemP where
  router : Verb → Option (Request → Response)
  certificates : Option (Request → Response)

/-- `ComputerSystem::put` (`computer_system.rs` lines 72–84): registers for
PUT the authentication wrapper at privilege `P::Put`. -/
def ComputerSystemP.put (b : ComputerSystemP) (P : OperationPrivilegeMapping)
    (strategy : Request → Except Response (Option AuthenticatedUser))
    (handler : Request → Response) : ComputerSystemP :=
  { b with router :=
      updateVerb b.router .put (wrapAuth (redfishAuth (P.app .put) strategy) handler) }

/-- `Certificate<S, P>` of `src/di-service/src/certificate.rs`. -/
structure CertificateP where
  router : Verb → Option (Request → Response)

/-- `Certificate::get` (`certificate.rs` lines 56–68): registers for GET the
authentication wrapper at privilege `P::Get`. -/
def CertificateP.get (b : CertificateP) (P : OperationPrivilegeMapping)
    (strategy : Request → Except Response (Option AuthenticatedUser))
    (handler : Request → Response) : CertificateP :=
  { router :=
      updateVerb b.router .get (wrapAuth (redfishAuth (P.app .get) strategy) handler) }

/-- `CertificateCollection<S, P>` of
`src/di-service/src/certificate_collection.rs`. -/
structure CertificateCollectionP where
  router : Verb → Option (Request → Response)
  certificates : Option (Request → Response)

/-- `#[derive(Default)]`-like empty collection (`Default` is only provided
at `P = DefaultPrivileges`; the privilege mapping is passed per method call
here). -/
def CertificateCollectionP.default : CertificateCollectionP :=
  { router := fun _ => none, certificates := none }

/-- `CertificateCollection::get` (`certificate_collection.rs` lines 64–76):
registers for GET the authentication wrapper at privilege `P::Get`. -/
def CertificateCollectionP.get (b : CertificateCollectionP) (P : OperationPrivilegeMapping)
    (strategy : Request → Except Response (Option AuthenticatedUser))
    (handler : Request → Response) : CertificateCollectionP :=
  { b with router :=
      updateVerb b.router .get (wrapAuth (redfishAuth (P.app .get) strategy) handler) }

/-- `CertificateCollection::into_router` (`certificate_collection.rs`
lines 83–104): the method router is installed at `/` with the
`METHOD_NOT_ALLOWED` fallback. -/
def CertificateCollectionP.into_router (b : CertificateCollectionP) :
    Verb → Request → Response :=
  runWithFallback b.router

end TwardyeceManager

namespace TwardyeceManager

/-! ## Combined authentication strategy and session store

`CombinedAuthenticationProxy` and `InMemorySessionManager` live in the
external `seuss` crate; `src/twardyece-manager/src/main.rs` (lines 124–127)
only constructs them, so both are modelled from the spec. -/

/-- An authentication sub-strategy: its per-request outcome
(`Ok(None)` anonymous, `Ok(Some(p))` verified, `Err(response)` active
rejection) and the challenge values of its scheme. -/
structure AuthStrategy where
  auth : Request → Except Response (Option AuthenticatedUser)
  challenges : List String

/-- The deferred failure surfaced by the combined strategy: the first
rejection, carrying the merged challenge values of all schemes. -/
def mergeChallenges (subs : List AuthStrategy) (e : Response) : Response :=
  { e with challenges := subs.flatMap (·.challenges) }

/-- Modelled from the spec: the recursion of `CombinedAuthenticationProxy`
(`seuss` crate).  Spec section 4.1: try the sub-strategies in order; the
first `Ok(Some(_))` wins; an `Err` is deferred, not returned immediately;
`Ok(None)` falls through; when the list is exhausted, a deferred rejection
is surfaced with the challenges of all schemes merged, and otherwise the
result is `Ok(None)`. -/
def combinedGo (all : List AuthStrategy) (request : Request) :
    List AuthStrategy → Option Response → Except Response (Option AuthenticatedUser)
  | [], deferred =>
    match deferred with
    | some e => .error (mergeChallenges all e)
    | none => .ok none
  | s :: rest, deferred =>
    match s.auth request with
    | .ok (some p) => .ok (some p)
    | .ok none => combinedGo all request rest deferred
    | .error e => combinedGo all request rest (some (deferred.getD e))

/-- Modelled from the spec: `CombinedAuthenticationProxy::authenticate_request`
over an ordered list of sub-strategies. -/
def CombinedAuthenticationProxy.authenticate_request (subs : List AuthStrategy)
    (request : Request) : Except Response (Option AuthenticatedUser) :=
  combinedGo subs request subs none

/-- A stored session (spec section 3): token, principal, creation time. -/
structure Session where
  token : String
  principal : AuthenticatedUser
  created_at : Nat
deriving DecidableEq, Repr

/-- Modelled from the spec: `InMemorySessionManager::revoke` (`seuss`
crate).  Spec section 4.2: removes the session; idempotent. -/
def SessionStore.revoke (store : List Session) (token : String) : List Session :=
  store.filter (fun s => s.token ≠ token)

/-- Modelled from the spec: `InMemorySessionManager::lookup` (`seuss`
crate).  Spec section 4.2: `None` if absent or expired, expiry checked
lazily via `now - created_at > TTL`. -/
def SessionStore.lookup (store : List Session) (token : String)
    (now ttl : Nat) : Option AuthenticatedUser :=
  match store.find? (fun s => s.token == token) with
  | some s => if ttl < now - s.created_at then none else some s.principal
  | none => none

/-- Whether a combined-authentication outcome is an active rejection. -/
def isRejected : Except Response (Option AuthenticatedUser) → Bool
  | .error _ => true
  | .ok _ => false

/-- A concrete principal used to instantiate the theorems. -/
def adminUser : AuthenticatedUser :=
  { username := "root", role := .administrator }

/-- A concrete sub-strategy that actively rejects with a Basic challenge. -/
def failingStrategy : AuthStrategy :=
  { auth := fun _ => .error
      { status := 401, body := .opaqueBody 7, challenges := ["Basic realm=redfish"] }
    challenges := ["Basic realm=redfish"] }

/-- A concrete sub-strategy that authenticates `adminUser`. -/
def succeedingStrategy : AuthStrategy :=
  { auth := fun _ => .ok (some adminUser)
    challenges := ["Basic realm=redfish"] }

/-- A concrete sub-strategy that finds no credentials. -/
def anonymousStrategy : AuthStrategy :=
  { auth := fun _ => .ok none
    challenges := ["X-Auth-Token"] }

end TwardyeceManager

namespace TwardyeceManager

/-! ## `Reset::post`
(`src/twardyece-manager/src/endpoint/systems.rs` lines 170–238 and
`src/manager/src/endpoint/systems.rs` lines 125–173) -/

/-- `resource::PowerState` variants matched by the source. -/
inductive PowerState where
  | on
  | off
  | poweringOn
  | poweringOff
  | paused
deriving DecidableEq, Repr

/-- `resource::ResetType` variants matched by the source. -/
inductive ResetType where
  | on
  | forceOn
  | forceOff
  | gracefulShutdown
  | gracefulRestart
  | forceRestart
  | powerCycle
  | nmi
  | suspend
  | pause
  | resume
  | pushPowerButton
deriving DecidableEq, Repr

/-- The Redfish registry messages the reset endpoints construct. -/
inductive RedfishMessage where
  | success
  | actionParameterMissing (action parameter : String)
  | propertyNotUpdated (property : String)
  | propertyValueError (property : String)
deriving DecidableEq, Repr

/-- `computer_system_detail::reset::ResetPostResponse`. -/
inductive ResetPostResponse where
  | ok (message : RedfishMessage)
  | default (message : RedfishMessage)
deriving DecidableEq, Repr

/-- A `Default(...)` response is the error case; `Ok(...)` reports
`Base::Success`. -/
def ResetPostResponse.isError : ResetPostResponse → Bool
  | .ok _ => false
  | .default _ => true

/-- `DummySystem` (both `endpoint/systems.rs` files). -/
structure DummySystem where
  odata_id : String
  name : String
  power_state : PowerState
deriving DecidableEq, Repr

/-- The shared match on a present `ResetType` (identical in
`src/twardyece-manager/src/endpoint/systems.rs` lines 197–227 and
`src/manager/src/endpoint/systems.rs` lines 141–171): the response produced
and the system's new state. -/
def applyReset (rt : ResetType) (s : DummySystem) : ResetPostResponse × DummySystem :=
  match rt with
  | .gracefulRestart | .forceRestart | .on | .forceOn | .powerCycle =>
    (.ok .success, { s with power_state := .on })
  | .forceOff | .gracefulShutdown =>
    (.ok .success, { s with power_state := .off })
  | .nmi | .suspend | .pause | .resume =>
    (.default (.propertyNotUpdated "PowerState"), s)
  | .pushPowerButton =>
    match s.power_state with
    | .on | .poweringOn => (.ok .success, { s with power_state := .off })
    | .off | .poweringOff => (.ok .success, { s with power_state := .on })
    | .paused => (.default (.propertyValueError "PowerState"), s)

/-- `Reset::post` of `src/manager/src/endpoint/systems.rs` (lines 125–173),
implemented on a single `DummySystem`: a missing `ResetType` is an
`ActionParameterMissing` error, otherwise the shared match runs. -/
def DummySystem.resetPost (s : DummySystem) (reset_type : Option ResetType) :
    ResetPostResponse × DummySystem :=
  match reset_type with
  | none => (.default (.actionParameterMissing "Reset" "ResetType"), s)
  | some rt => applyReset rt s

/-- `Reset::post` of `src/twardyece-manager/src/endpoint/systems.rs`
(lines 174–237), implemented on the collection: find the system named by the
id (the first match is mutated in place, the rest is unchanged); an unknown
id or a missing `ResetType` is an error. -/
def Systems.resetPost : List DummySystem → String → Option ResetType →
    ResetPostResponse × List DummySystem
  | [], _, _ =>
    (.default (.actionParameterMissing "ComputerSystem.Reset" "ResetType"), [])
  | s :: rest, id, reset_type =>
    if s.name = id then
      match reset_type with
      | none => (.default (.actionParameterMissing "Reset" "ResetType"), s :: rest)
      | some rt =>
        let (resp, s') := applyReset rt s
        (resp, s' :: rest)
    else
      let (resp, rest') := Systems.resetPost rest id reset_type
      (resp, s :: rest')

/-- The dummy system of `src/twardyece-manager/src/main.rs`, here in the
`Paused` power state. -/
def pausedSystem : DummySystem :=
  { odata_id := "/redfish/v1/Systems/1", name := "1", power_state := .paused }

end TwardyeceManager

namespace TwardyeceManager

/-- C8: `ExampleBasicAuthenticator::authenticate` returns `Ok` for every
username/password pair, ignores the password, and always yields an
`Administrator` principal carrying the given username; it can never fail. -/
theorem exampleBasicAuthenticator_always_ok :
    ∀ username password : String,
      ExampleBasicAuthenticator.authenticate username password =
        .ok { username := username, role := .administrator } ∧
      (∀ password' : String,
        ExampleBasicAuthenticator.authenticate username password =
          ExampleBasicAuthenticator.authenticate username password') ∧
      ∀ e : RedfishError,
        ExampleBasicAuthenticator.authenticate username password ≠ .error e := by
  intro username password
  refine ⟨rfl, fun _ => rfl, fun e h => ?_⟩
  exact Except.noConfusion h

/-- Witness for C8 at a concrete username and password. -/
theorem exampleBasicAuthenticator_always_ok_witness :
    ExampleBasicAuthenticator.authenticate "root" "hunter2" =
      .ok { username := "root", role := .administrator } :=
  (exampleBasicAuthenticator_always_ok "root" "hunter2").1

/-- C2 counterexample: the default privilege mapping for the
`ComputerSystem` resource class assigns `Login` to GET, and `Login` is
satisfied by `ReadOnly`, not only by the most restrictive role — so a
defaulted (resource class, verb) pair does not always require the most
restrictive role. -/
theorem computerSystem_default_get_not_most_restrictive :
    ComputerSystemDefaultPrivileges.app .get = .login ∧
    minRoleFor (ComputerSystemDefaultPrivileges.app .get) ≠ mostRestrictiveRole := by
  exact ⟨rfl, by decide⟩

/-- C2 (amended): every (resource class, verb) pair not explicitly
configured receives the per-class `DefaultPrivileges` mapping, which is
total, so no pair is left without an authorization requirement; the
`Certificate` and `CertificateCollection` defaults require
`ConfigureManager` (Administrator-only, the most restrictive role) for every
verb, while the `ComputerSystem` default requires `Login` for GET/HEAD and
`ConfigureComponents` for POST/PUT/PATCH/DELETE. -/
theorem default_privilege_tables :
    (∀ v : Verb, CertificateDefaultPrivileges.app v = .configureManager ∧
      minRoleFor (CertificateDefaultPrivileges.app v) = mostRestrictiveRole) ∧
    (∀ v : Verb, CertificateCollectionDefaultPrivileges.app v = .configureManager ∧
      minRoleFor (CertificateCollectionDefaultPrivileges.app v) = mostRestrictiveRole) ∧
    ComputerSystemDefaultPrivileges.app .get = .login ∧
    ComputerSystemDefaultPrivileges.app .head = .login ∧
    ComputerSystemDefaultPrivileges.app .post = .configureComponents ∧
    ComputerSystemDefaultPrivileges.app .put = .configureComponents ∧
    ComputerSystemDefaultPrivileges.app .patch = .configureComponents ∧
    ComputerSystemDefaultPrivileges.app .delete = .configureComponents := by
  refine ⟨fun v => ?_, fun v => ?_, rfl, rfl, rfl, rfl, rfl, rfl⟩ <;>
    cases v <;> exact ⟨rfl, rfl⟩

/-- C3: whenever a configured resource locator's parameter extraction fails —
the named path parameter is absent from the captured parameters, or its raw
string fails to parse into the expected type — the produced response has
status 400, never 500; this holds both for `get_request_parameter` (used by
the `FunctionResourceHandler`s) and for the `route_layer` middleware binding
`computer_system_id` in `main.rs`. -/
theorem locator_parameter_failures_are_400 :
    (∀ (α : Type) (parse : String → Option α) (params : List (String × String))
       (parameter_name : String) (r : Response),
        get_request_parameter parse params parameter_name = .error r →
        r.status = 400 ∧ r.status ≠ 500) ∧
    (∀ (next : Request → Response) (request : Request) (r : Response),
        (lookupParam request.params "computer_system_id" = none ∨
          (∃ raw, lookupParam request.params "computer_system_id" = some raw ∧
            parseU32 raw = none)) →
        computerSystemIdMiddleware next request = r →
        r.status = 400 ∧ r.status ≠ 500) := by
  constructor
  · intro α parse params parameter_name r h
    unfold get_request_parameter at h
    split at h
    · injection h with h'
      subst h'
      exact ⟨rfl, by decide⟩
    · split at h
      · injection h with h'
        subst h'
        exact ⟨rfl, by decide⟩
      · exact Except.noConfusion h
  · intro next request r hcase h
    unfold computerSystemIdMiddleware at h
    rcases hcase with hnone | ⟨raw, hsome, hparse⟩
    · simp only [hnone] at h
      subst h
      exact ⟨rfl, by decide⟩
    · simp only [hsome, hparse] at h
      subst h
      exact ⟨rfl, by simp [parseErrorResponse]⟩

/-- Witness for C3 at concrete inputs: an always-failing parser on a present
parameter, and the middleware on a request with a non-numeric system id. -/
theorem locator_parameter_failures_are_400_witness :
    (redfish_map_err_no_log.status = 400 ∧ redfish_map_err_no_log.status ≠ 500) ∧
    ((parseErrorResponse "abc").status = 400 ∧ (parseErrorResponse "abc").status ≠ 500) := by
  constructor
  · exact locator_parameter_failures_are_400.1 Nat (fun _ => none) [("id", "7")] "id"
      redfish_map_err_no_log (by decide)
  · exact locator_parameter_failures_are_400.2 (fun _ => redfish_map_err)
      nonNumericSystemRequest (parseErrorResponse "abc")
      (Or.inr ⟨"abc", by decide, by decide⟩) (by decide)

/-- C4: when the resource locator's handler (parameter extraction or
resolver) fails, `ResourceLocatorService::call` returns that rejection
immediately and the inner service is never invoked (the result does not
depend on it); concretely, on a request with the non-numeric system id
`"abc"` the `route_layer` middleware of `main.rs` produces the 400 response
without running the inner stage. -/
theorem resolver_failure_short_circuits :
    (∀ (handlerCall : Request → Except Response Request) (request : Request) (r : Response),
        handlerCall request = .error r →
        ∀ inner inner' : Request → Response,
          ResourceLocatorService.call handlerCall inner request = r ∧
          ResourceLocatorService.call handlerCall inner request =
            ResourceLocatorService.call handlerCall inner' request) ∧
    (∀ next next' : Request → Response,
        computerSystemIdMiddleware next nonNumericSystemRequest = parseErrorResponse "abc" ∧
        (parseErrorResponse "abc").status = 400 ∧
        computerSystemIdMiddleware next nonNumericSystemRequest =
          computerSystemIdMiddleware next' nonNumericSystemRequest) := by
  constructor
  · intro handlerCall request r h inner inner'
    constructor
    · simp [ResourceLocatorService.call, h]
    · simp [ResourceLocatorService.call, h]
  · intro next next'
    have hl : lookupParam nonNumericSystemRequest.params "computer_system_id" = some "abc" := by
      decide
    have hp : parseU32 "abc" = none := by decide
    refine ⟨?_, rfl, ?_⟩
    · unfold computerSystemIdMiddleware
      rw [hl]
      simp only [hp]
    · unfold computerSystemIdMiddleware
      rw [hl]
      simp only [hp]

/-- Witness for C4 at a concrete failing handler and concrete inner
services. -/
theorem resolver_failure_short_circuits_witness :
    ResourceLocatorService.call (fun _ => .error redfish_map_err)
      (fun _ => redfish_map_err_no_log) nonNumericSystemRequest = redfish_map_err ∧
    computerSystemIdMiddleware (fun _ => redfish_map_err) nonNumericSystemRequest =
      parseErrorResponse "abc" := by
  exact ⟨(resolver_failure_short_circuits.1 (fun _ => .error redfish_map_err)
      nonNumericSystemRequest redfish_map_err rfl
      (fun _ => redfish_map_err_no_log) (fun _ => redfish_map_err_no_log)).1,
    (resolver_failure_short_circuits.2 (fun _ => redfish_map_err)
      (fun _ => redfish_map_err)).1⟩

/-- C5: when the resolver (and its parameter extraction) succeeds, the
resolved typed value — not the raw path string — is inserted into the
request's extensions under its type key and the next stage is invoked with
the enriched request; a two-argument resolver receives the value bound by an
enclosing locator through its extractor argument (`Extension::<u32>` reads
back exactly the value the outer locator inserted). -/
theorem resolver_success_injects_typed_value :
    (∀ (α : Type) (parse : String → Option α) (f : α → Except Response Ext)
       (request : Request) (parameter_name : String) (v : α) (r : Ext),
        get_request_parameter parse request.params parameter_name = .ok v →
        f v = .ok r →
        FunctionResourceHandler.call1 parse f request parameter_name =
          .ok (request.insertExt r) ∧
        lookupTag r.tag (request.insertExt r).extensions = some r) ∧
    (∀ (γ α : Type) (extract : Request → Except Response γ) (parse : String → Option α)
       (f : γ → α → Except Response Ext) (request : Request) (parameter_name : String)
       (x : γ) (v : α) (r : Ext),
        extract request = .ok x →
        get_request_parameter parse request.params parameter_name = .ok v →
        f x v = .ok r →
        FunctionResourceHandler.call2 extract parse f request parameter_name =
          .ok (request.insertExt r)) ∧
    (∀ (handlerCall : Request → Except Response Request) (inner : Request → Response)
       (request enriched : Request),
        handlerCall request = .ok enriched →
        ResourceLocatorService.call handlerCall inner request = inner enriched) ∧
    (∀ (request : Request) (n : Nat),
        extractSysId (request.insertExt (.sysId n)) = .ok n) := by
  refine ⟨?_, ?_, ?_, ?_⟩
  · intro α parse f request parameter_name v r hget hf
    constructor
    · simp [FunctionResourceHandler.call1, hget, hf]
    · simp [lookupTag, Request.insertExt]
  · intro γ α extract parse f request parameter_name x v r hx hget hf
    simp [FunctionResourceHandler.call2, hx, hget, hf]
  · intro handlerCall inner request enriched h
    simp [ResourceLocatorService.call, h]
  · intro request n
    simp [extractSysId, lookupTag, Request.insertExt, Ext.tag]

/-- Witness for C5: a concrete locator resolving the system id `42` into a
typed extension slot, a concrete two-argument resolver consuming the
outer-bound value, and the extension read-back. -/
theorem resolver_success_injects_typed_value_witness :
    FunctionResourceHandler.call1 parseU32 (fun n => .ok (.sysId n))
      { params := [("computer_system_id", "42")], extensions := [] } "computer_system_id" =
      .ok { params := [("computer_system_id", "42")], extensions := [Ext.sysId 42] } ∧
    FunctionResourceHandler.call2 extractSysId parseU32
      (fun outer raw => .ok (.sysId (outer * 100 + raw)))
      { params := [("certificate_id", "7")], extensions := [Ext.sysId 42] } "certificate_id" =
      .ok { params := [("certificate_id", "7")], extensions := [Ext.sysId 4207] } ∧
    extractSysId { params := [], extensions := [Ext.sysId 42] } = .ok 42 := by
  refine ⟨?_, ?_, ?_⟩
  · have h := (resolver_success_injects_typed_value.1 Nat parseU32 (fun n => .ok (.sysId n))
      { params := [("computer_system_id", "42")], extensions := [] } "computer_system_id"
      42 (.sysId 42) (by decide) rfl).1
    rw [h]
    decide
  · have h := resolver_success_injects_typed_value.2.1 Nat Nat extractSysId parseU32
      (fun outer raw => .ok (.sysId (outer * 100 + raw)))
      { params := [("certificate_id", "7")], extensions := [Ext.sysId 42] } "certificate_id"
      42 7 (.sysId 4207) (by decide) (by decide) (by decide)
    rw [h]
    decide
  · exact resolver_success_injects_typed_value.2.2.2 { params := [], extensions := [] } 42

/-- Registering an authentication-wrapped service preserves the invariant
that every registered service of the method router is such a wrapper. -/
lemma updateVerb_allWrapped {routes : Verb → Option (Request → Response)} {v : Verb}
    {extract : Request → Except Response AuthenticatedUser} {handler : Request → Response}
    (h : allWrapped routes) :
    allWrapped (updateVerb routes v (wrapAuth extract handler)) := by
  intro v' s hs
  unfold updateVerb at hs
  by_cases hv : v' = v
  · rw [if_pos hv] at hs
    exact ⟨extract, handler, (Option.some.injEq ..).mp hs |>.symm⟩
  · rw [if_neg hv] at hs
    exact h v' s hs

/-- C1: every route registered by the resource builders
(`ComputerSystemCollection::get/post`, `ComputerSystemP::put`,
`CertificateP::get`, `CertificateCollectionP::get`) is the authentication
wrapper around the user handler for that verb's privilege; the wrapper runs
the handler only when the `RedfishAuth` extractor succeeded, inserting the
authenticated user into the request's extensions first, and otherwise
returns the extractor's rejection — and every builder method preserves the
invariant that all registered services are such wrappers, so no registered
handler is reachable without passing authentication/authorization. -/
theorem builders_authenticate_before_handler :
    (∀ (extract : Request → Except Response AuthenticatedUser)
       (handler : Request → Response) (request : Request),
        (∀ e, extract request = .error e → wrapAuth extract handler request = e) ∧
        (∀ u, extract request = .ok u →
          wrapAuth extract handler request = handler (request.insertExt (.user u)) ∧
          lookupUser (request.insertExt (.user u)) = some u)) ∧
    (∀ (strategy : Request → Except Response (Option AuthenticatedUser))
       (handler : Request → Response) (b : ComputerSystemCollection)
       (bp : ComputerSystemP) (c : CertificateP) (cc : CertificateCollectionP)
       (P : OperationPrivilegeMapping),
        (b.get strategy handler).collection .get =
          some (wrapAuth (redfishAuth .login strategy) handler) ∧
        (b.post strategy handler).collection .post =
          some (wrapAuth (redfishAuth .configureComponents strategy) handler) ∧
        (bp.put P strategy handler).router .put =
          some (wrapAuth (redfishAuth (P.app .put) strategy) handler) ∧
        (c.get P strategy handler).router .get =
          some (wrapAuth (redfishAuth (P.app .get) strategy) handler) ∧
        (cc.get P strategy handler).router .get =
          some (wrapAuth (redfishAuth (P.app .get) strategy) handler)) ∧
    allWrapped ComputerSystemCollection.default.collection ∧
    (∀ strategy handler (b : ComputerSystemCollection),
        allWrapped b.collection →
        allWrapped ((b.get strategy handler).collection) ∧
        allWrapped ((b.post strategy handler).collection)) ∧
    (∀ P strategy handler (bp : ComputerSystemP),
        allWrapped bp.router → allWrapped ((bp.put P strategy handler).router)) ∧
    (∀ P strategy handler (c : CertificateP),
        allWrapped c.router → allWrapped ((c.get P strategy handler).router)) ∧
    (∀ P strategy handler (cc : CertificateCollectionP),
        allWrapped cc.router → allWrapped ((cc.get P strategy handler).router)) := by
  refine ⟨?_, ?_, ?_, ?_, ?_, ?_, ?_⟩
  · intro extract handler request
    constructor
    · intro e he
      simp [wrapAuth, he]
    · intro u hu
      refine ⟨by simp [wrapAuth, hu], ?_⟩
      simp [lookupUser, lookupTag, Request.insertExt, Ext.tag]
  · intro strategy handler b bp c cc P
    exact ⟨rfl, rfl, rfl, rfl, rfl⟩
  · intro v s hs
    exact Option.noConfusion hs
  · intro strategy handler b h
    exact ⟨updateVerb_allWrapped h, updateVerb_allWrapped h⟩
  · intro P strategy handler bp h
    exact updateVerb_allWrapped h
  · intro P strategy handler c h
    exact updateVerb_allWrapped h
  · intro P strategy handler cc h
    exact updateVerb_allWrapped h

/-- Witness for C1: a concrete rejecting extractor short-circuits with its
rejection, and a concrete succeeding extractor leads to the handler with the
user bound in the extensions. -/
theorem builders_authenticate_before_handler_witness :
    wrapAuth (fun _ => .error redfish_map_err) (fun _ => methodNotAllowedResponse)
      nonNumericSystemRequest = redfish_map_err ∧
    wrapAuth (fun _ => .ok adminUser) (fun _ => methodNotAllowedResponse)
      nonNumericSystemRequest = methodNotAllowedResponse ∧
    lookupUser (nonNumericSystemRequest.insertExt (.user adminUser)) = some adminUser := by
  refine ⟨?_, ?_, ?_⟩
  · exact (builders_authenticate_before_handler.1 (fun _ => .error redfish_map_err)
      (fun _ => methodNotAllowedResponse) nonNumericSystemRequest).1 redfish_map_err rfl
  · exact ((builders_authenticate_before_handler.1 (fun _ => .ok adminUser)
      (fun _ => methodNotAllowedResponse) nonNumericSystemRequest).2 adminUser rfl).1
  · exact ((builders_authenticate_before_handler.1 (fun _ => .ok adminUser)
      (fun _ => methodNotAllowedResponse) nonNumericSystemRequest).2 adminUser rfl).2

/-- C10: a request for a verb with no registered handler on a collection
router built by `into_router` is answered by the fallback: 405 Method Not
Allowed with the `OperationNotAllowed` error body; the fallback's response
does not depend on the request at all, so no authentication or privilege
check happens before it responds. -/
theorem unregistered_method_405_without_auth :
    (∀ (b : ComputerSystemCollection) (v : Verb) (request : Request),
        b.collection v = none →
        b.into_router v request = methodNotAllowedResponse ∧
        methodNotAllowedResponse.status = 405 ∧
        methodNotAllowedResponse.body = .operationNotAllowed ∧
        ∀ request' : Request, b.into_router v request = b.into_router v request') ∧
    (∀ (b : CertificateCollectionP) (v : Verb) (request : Request),
        b.router v = none →
        b.into_router v request = methodNotAllowedResponse ∧
        ∀ request' : Request, b.into_router v request = b.into_router v request') := by
  constructor
  · intro b v request h
    refine ⟨?_, rfl, rfl, ?_⟩
    · simp [ComputerSystemCollection.into_router, runWithFallback, h]
    · intro request'
      simp [ComputerSystemCollection.into_router, runWithFallback, h]
  · intro b v request h
    refine ⟨?_, ?_⟩
    · simp [CertificateCollectionP.into_router, runWithFallback, h]
    · intro request'
      simp [CertificateCollectionP.into_router, runWithFallback, h]

/-- Witness for C10: the default (empty) builders answer 405 on DELETE and
GET. -/
theorem unregistered_method_405_without_auth_witness :
    ComputerSystemCollection.default.into_router .delete nonNumericSystemRequest =
      methodNotAllowedResponse ∧
    CertificateCollectionP.default.into_router .get nonNumericSystemRequest =
      methodNotAllowedResponse := by
  exact ⟨(unregistered_method_405_without_auth.1 ComputerSystemCollection.default .delete
      nonNumericSystemRequest rfl).1,
    (unregistered_method_405_without_auth.2 CertificateCollectionP.default .get
      nonNumericSystemRequest rfl).1⟩

/-- When the remaining sub-strategies all fall through anonymously, the
combined recursion keeps a deferred rejection (merged at the end) or
produces the anonymous result. -/
lemma combinedGo_all_anonymous (all : List AuthStrategy) (request : Request)
    (rem : List AuthStrategy) (h : ∀ t ∈ rem, t.auth request = .ok none) :
    combinedGo all request rem none = .ok none ∧
    ∀ e, combinedGo all request rem (some e) = .error (mergeChallenges all e) := by
  induction rem with
  | nil => exact ⟨rfl, fun _ => rfl⟩
  | cons s rest ih =>
    have hs := h s (List.mem_cons_self s rest)
    have ih' := ih fun t ht => h t (List.mem_cons_of_mem s ht)
    constructor
    · simp only [combinedGo, hs]
      exact ih'.1
    · intro e
      simp only [combinedGo, hs]
      exact ih'.2 e

/-- When no remaining sub-strategy succeeds, a deferred rejection is
surfaced with the challenges merged, and without a deferred rejection the
recursion either stays anonymous (no rejection at all among the remainder)
or surfaces the first rejection it meets. -/
lemma combinedGo_no_success (all : List AuthStrategy) (request : Request)
    (rem : List AuthStrategy)
    (h : ∀ t ∈ rem, ∀ q, t.auth request ≠ .ok (some q)) :
    (∀ e, combinedGo all request rem (some e) = .error (mergeChallenges all e)) ∧
    ((combinedGo all request rem none = .ok none ∧
        ∀ t ∈ rem, ∀ e, t.auth request ≠ .error e) ∨
      ∃ e, combinedGo all request rem none = .error (mergeChallenges all e)) := by
  induction rem with
  | nil =>
    refine ⟨fun _ => rfl, Or.inl ⟨rfl, ?_⟩⟩
    intro t ht
    exact absurd ht (List.not_mem_nil t)
  | cons s rest ih =>
    have hs := h s (List.mem_cons_self s rest)
    have ih' := ih fun t ht => h t (List.mem_cons_of_mem s ht)
    cases hsa : s.auth request with
    | ok o =>
      cases o with
      | some q => exact absurd hsa (hs q)
      | none =>
        refine ⟨?_, ?_⟩
        · intro e
          simp only [combinedGo, hsa]
          exact ih'.1 e
        · rcases ih'.2 with ⟨hres, hnone⟩ | ⟨e, hres⟩
          · refine Or.inl ⟨by simp only [combinedGo, hsa]; exact hres, ?_⟩
            intro t ht e
            rcases List.mem_cons.mp ht with h1 | h1
            · subst h1
              rw [hsa]
              exact fun hc => Except.noConfusion hc
            · exact hnone t h1 e
          · exact Or.inr ⟨e, by simp only [combinedGo, hsa]; exact hres⟩
    | error e0 =>
      refine ⟨?_, ?_⟩
      · intro e
        simp only [combinedGo, hsa, Option.getD]
        exact ih'.1 e
      · refine Or.inr ⟨e0, ?_⟩
        simp only [combinedGo, hsa, Option.getD]
        exact ih'.1 e0

/-- Prepending sub-strategies that never produce a principal does not change
a success further down the list. -/
lemma combinedGo_first_success (all : List AuthStrategy) (request : Request)
    (pre : List AuthStrategy) (s : AuthStrategy) (post : List AuthStrategy)
    (p : AuthenticatedUser)
    (hpre : ∀ t ∈ pre, ∀ q, t.auth request ≠ .ok (some q))
    (hs : s.auth request = .ok (some p)) :
    ∀ d, combinedGo all request (pre ++ s :: post) d = .ok (some p) := by
  induction pre with
  | nil =>
    intro d
    simp only [List.nil_append, combinedGo, hs]
  | cons t rest ih =>
    intro d
    have ht := hpre t (List.mem_cons_self t rest)
    have ih' := ih fun t' ht' => hpre t' (List.mem_cons_of_mem t ht')
    cases hta : t.auth request with
    | ok o =>
      cases o with
      | some q => exact absurd hta (ht q)
      | none =>
        simp only [List.cons_append, combinedGo, hta]
        exact ih' d
    | error e =>
      simp only [List.cons_append, combinedGo, hta]
      exact ih' _

/-- C6: for the combined authentication strategy over an ordered list of
sub-strategies, the first sub-strategy returning `Ok(Some(principal))`
determines the result (an `Err` from an earlier sub-strategy is deferred,
not returned immediately); if every sub-strategy returns `Ok(None)` the
combined result is `Ok(None)`; and when no sub-strategy succeeds but some
rejected, the deferred rejection is surfaced carrying the challenge headers
of all schemes merged. -/
theorem combined_strategy_policy :
    (∀ (pre post : List AuthStrategy) (s : AuthStrategy) (request : Request)
       (p : AuthenticatedUser),
        (∀ t ∈ pre, ∀ q, t.auth request ≠ .ok (some q)) →
        s.auth request = .ok (some p) →
        CombinedAuthenticationProxy.authenticate_request (pre ++ s :: post) request =
          .ok (some p)) ∧
    (∀ (subs : List AuthStrategy) (request : Request),
        (∀ t ∈ subs, t.auth request = .ok none) →
        CombinedAuthenticationProxy.authenticate_request subs request = .ok none) ∧
    (∀ (subs : List AuthStrategy) (request : Request),
        (∀ t ∈ subs, ∀ q, t.auth request ≠ .ok (some q)) →
        (∃ t ∈ subs, ∃ e, t.auth request = .error e) →
        ∃ e, CombinedAuthenticationProxy.authenticate_request subs request =
            .error (mergeChallenges subs e) ∧
          (mergeChallenges subs e).challenges = subs.flatMap (·.challenges)) := by
  refine ⟨?_, ?_, ?_⟩
  · intro pre post s request p hpre hs
    exact combinedGo_first_success (pre ++ s :: post) request pre s post p hpre hs none
  · intro subs request h
    exact (combinedGo_all_anonymous subs request subs h).1
  · intro subs request hns ⟨t, ht, e, he⟩
    rcases (combinedGo_no_success subs request subs hns).2 with ⟨_, hnone⟩ | ⟨e0, hres⟩
    · exact absurd he (hnone t ht e)
    · exact ⟨e0, hres, rfl⟩

/-- Witness for C6: a rejecting sub-strategy followed by a succeeding one
still succeeds; a lone anonymous sub-strategy stays anonymous; a lone
rejecting sub-strategy yields a rejection. -/
theorem combined_strategy_policy_witness :
    CombinedAuthenticationProxy.authenticate_request [failingStrategy, succeedingStrategy]
      nonNumericSystemRequest = .ok (some adminUser) ∧
    CombinedAuthenticationProxy.authenticate_request [anonymousStrategy]
      nonNumericSystemRequest = .ok none ∧
    isRejected (CombinedAuthenticationProxy.authenticate_request [failingStrategy]
      nonNumericSystemRequest) = true := by
  refine ⟨?_, ?_, ?_⟩
  · exact combined_strategy_policy.1 [failingStrategy] [] succeedingStrategy
      nonNumericSystemRequest adminUser
      (by
        intro t ht q
        rw [List.mem_singleton] at ht
        subst ht
        simp [failingStrategy])
      rfl
  · exact combined_strategy_policy.2.1 [anonymousStrategy] nonNumericSystemRequest
      (by
        intro t ht
        rw [List.mem_singleton] at ht
        subst ht
        rfl)
  · obtain ⟨e, he, _⟩ := combined_strategy_policy.2.2 [failingStrategy]
      nonNumericSystemRequest
      (by
        intro t ht q
        rw [List.mem_singleton] at ht
        subst ht
        simp [failingStrategy])
      ⟨failingStrategy, List.mem_singleton.mpr rfl,
        { status := 401, body := .opaqueBody 7, challenges := ["Basic realm=redfish"] }, rfl⟩
    rw [he]
    rfl

/-- C7: revoking a token removes it from the session store — a subsequent
lookup of that token returns `None` at every clock value and TTL — and
revocation is idempotent: revoking again leaves the store unchanged. -/
theorem revoke_then_lookup_is_none :
    ∀ (store : List Session) (token : String) (now ttl : Nat),
      SessionStore.lookup (SessionStore.revoke store token) token now ttl = none ∧
      SessionStore.revoke (SessionStore.revoke store token) token =
        SessionStore.revoke store token := by
  intro store token now ttl
  constructor
  · unfold SessionStore.lookup
    have hf : (SessionStore.revoke store token).find? (fun s => s.token == token) = none := by
      rw [List.find?_eq_none]
      intro s hs hbeq
      have h2 := of_decide_eq_true (List.mem_filter.mp hs).2
      exact h2 (eq_of_beq hbeq)
    rw [hf]
  · unfold SessionStore.revoke
    induction store with
    | nil => rfl
    | cons s rest ih =>
      by_cases h : s.token = token
      · simp [List.filter_cons, h, ih]
      · simp [List.filter_cons, h, ih]

/-- The `Nmi | Suspend | Pause | Resume` arm: an error response, system
untouched. -/
lemma applyReset_unsupported (s : DummySystem) (rt : ResetType)
    (h : rt = .nmi ∨ rt = .suspend ∨ rt = .pause ∨ rt = .resume) :
    applyReset rt s = (.default (.propertyNotUpdated "PowerState"), s) := by
  rcases h with h | h | h | h <;> subst h <;> rfl

/-- The `PushPowerButton` arm on a paused system: an error response, system
untouched. -/
lemma applyReset_pushPowerButton_paused (s : DummySystem)
    (h : s.power_state = .paused) :
    applyReset .pushPowerButton s = (.default (.propertyValueError "PowerState"), s) := by
  simp [applyReset, h]

/-- If the reset arm errors without touching any system the id could name,
the collection-level `Reset::post` errors and returns the list unchanged. -/
lemma Systems.resetPost_noop (systems : List DummySystem) (id : String) (rt : ResetType)
    (herr : ∀ s ∈ systems, s.name = id →
      ∃ m, applyReset rt s = (.default m, s)) :
    (Systems.resetPost systems id (some rt)).1.isError = true ∧
    (Systems.resetPost systems id (some rt)).2 = systems := by
  induction systems with
  | nil => exact ⟨rfl, rfl⟩
  | cons s rest ih =>
    have ih' := ih fun t ht h => herr t (List.mem_cons_of_mem s ht) h
    by_cases h : s.name = id
    · obtain ⟨m, hm⟩ := herr s (List.mem_cons_self s rest) h
      simp [Systems.resetPost, h, hm, ResetPostResponse.isError]
    · rcases hx : Systems.resetPost rest id (some rt) with ⟨resp, rest'⟩
      rw [hx] at ih'
      simp only [Systems.resetPost, h, if_false, hx]
      exact ⟨ih'.1, by rw [show rest' = rest from ih'.2]⟩

/-- C9: a reset request whose type is `Nmi`, `Suspend`, `Pause` or `Resume`
— and a `PushPowerButton` request while the targeted system is `Paused` —
returns an error response and leaves the power state of every system
unchanged, in both the collection-level `Reset::post`
(`src/twardyece-manager`) and the per-system `Reset::post`
(`src/manager`). -/
theorem failed_reset_is_atomic :
    (∀ (systems : List DummySystem) (id : String) (rt : ResetType),
        rt = .nmi ∨ rt = .suspend ∨ rt = .pause ∨ rt = .resume →
        (Systems.resetPost systems id (some rt)).1.isError = true ∧
        (Systems.resetPost systems id (some rt)).2 = systems) ∧
    (∀ (systems : List DummySystem) (id : String),
        (∀ s ∈ systems, s.name = id → s.power_state = .paused) →
        (Systems.resetPost systems id (some .pushPowerButton)).1.isError = true ∧
        (Systems.resetPost systems id (some .pushPowerButton)).2 = systems) ∧
    (∀ (s : DummySystem) (rt : ResetType),
        rt = .nmi ∨ rt = .suspend ∨ rt = .pause ∨ rt = .resume →
        (DummySystem.resetPost s (some rt)).1.isError = true ∧
        (DummySystem.resetPost s (some rt)).2 = s) ∧
    (∀ s : DummySystem, s.power_state = .paused →
        (DummySystem.resetPost s (some .pushPowerButton)).1.isError = true ∧
        (DummySystem.resetPost s (some .pushPowerButton)).2 = s) := by
  refine ⟨?_, ?_, ?_, ?_⟩
  · intro systems id rt hrt
    exact Systems.resetPost_noop systems id rt fun s _ _ =>
      ⟨.propertyNotUpdated "PowerState", applyReset_unsupported s rt hrt⟩
  · intro systems id hpaused
    exact Systems.resetPost_noop systems id .pushPowerButton fun s hs h =>
      ⟨.propertyValueError "PowerState",
        applyReset_pushPowerButton_paused s (hpaused s hs h)⟩
  · intro s rt hrt
    have h := applyReset_unsupported s rt hrt
    simp [DummySystem.resetPost, h, ResetPostResponse.isError]
  · intro s hp
    have h := applyReset_pushPowerButton_paused s hp
    simp [DummySystem.resetPost, h, ResetPostResponse.isError]

/-- Witness for C9: the paused dummy system of `main.rs` survives `Nmi` and
`PushPowerButton` resets unchanged, with an error response each time. -/
theorem failed_reset_is_atomic_witness :
    (Systems.resetPost [pausedSystem] "1" (some .nmi)).2 = [pausedSystem] ∧
    (Systems.resetPost [pausedSystem] "1" (some .pushPowerButton)).2 = [pausedSystem] ∧
    (DummySystem.resetPost pausedSystem (some .suspend)).1.isError = true ∧
    (DummySystem.resetPost pausedSystem (some .pushPowerButton)).2 = pausedSystem := by
  refine ⟨?_, ?_, ?_, ?_⟩
  · exact (failed_reset_is_atomic.1 [pausedSystem] "1" .nmi (Or.inl rfl)).2
  · exact (failed_reset_is_atomic.2.1 [pausedSystem] "1"
      (by
        intro s hs _
        rw [List.mem_singleton] at hs
        subst hs
        rfl)).2
  · exact (failed_reset_is_atomic.2.2.1 pausedSystem .suspend (Or.inr (Or.inl rfl))).1
  · exact (failed_reset_is_atomic.2.2.2 pausedSystem rfl).2

end TwardyeceManager
